import Mathlib

/-!
Shallow embedding of the Plant CRUD service in `src/server/app.py`.

The service stores `Plant` records and exposes five operations:
list (`Plants.get`), create (`Plants.post`), get-by-id (`PlantByID.get`),
partial update (`PlantByID.patch`) and delete (`PlantByID.delete`),
together with a pure validator `validate_plant_data`.

JSON scalar values are modelled by `JValue`.  Python floats are carried as
an unevaluated numerator/denominator pair (`PyFloat`); the program never
computes with a float, it only stores and compares them, so this
representation is exact for every behaviour of the code.  Request bodies
are association lists `JObject` (Python dicts have unique keys, which is
assumed where needed as an explicit hypothesis).  Response bodies are the
finitely many JSON shapes the handlers actually build (`Body`).
-/

/-- A Python float literal, kept as an unevaluated decimal fraction
(e.g. `9.99` is `⟨999, 100⟩`).  The program only stores and tests floats
for equality, never computes with them. -/
structure PyFloat where
  num : Int
  den : Int
deriving DecidableEq, Repr

/-- A JSON scalar value as decoded from a request body or stored in a
`Plant` column.  `jint` and `jfloat` are kept distinct, as Python's
`int` and `float` types are. -/
inductive JValue where
  | jnull : JValue
  | jbool : Bool → JValue
  | jint : Int → JValue
  | jfloat : PyFloat → JValue
  | jstr : String → JValue
deriving DecidableEq, Repr

/-- Whether a value is a Python `str`. -/
def JValue.isStr : JValue → Bool
  | .jstr _ => true
  | _ => false

/-- `isinstance(x, (int, float))` from app.py line 47.  Python's `bool` is
a subclass of `int`, so boolean values pass this check. -/
def isNumeric : JValue → Bool
  | .jint _ => true
  | .jfloat _ => true
  | .jbool _ => true
  | _ => false

/-- A decoded JSON object (a Python dict): an association list with the
dict's insertion order. -/
abbrev JObject := List (String × JValue)

/-- Python `str.strip()` with no argument: drop leading and trailing
whitespace. -/
def pyStrip (s : String) : String :=
  ⟨((s.data.dropWhile Char.isWhitespace).reverse.dropWhile Char.isWhitespace).reverse⟩

/-- The exception raised by `validate_plant_data` when `.strip()` is called
on a non-string `name` value (app.py line 44). -/
inductive PyExn where
  | attributeError
deriving DecidableEq, Repr

/-- The `if not partial` loop of `validate_plant_data` (app.py lines
39-42): one `"This field is required"` error per absent required field,
accumulated in loop order. -/
def requiredErrors (data : JObject) : List (String × String) :=
  ["name", "image", "price"].foldl
    (fun es f => if (data.lookup f).isNone then es ++ [(f, "This field is required")] else es)
    []

/-- The empty-name check of `validate_plant_data` (app.py lines 44-45):
`if 'name' in data and len(data.get('name', '').strip()) == 0`.  Calling
`.strip()` on a non-string raises `AttributeError`. -/
def nameCheck (data : JObject) (es : List (String × String)) :
    Except PyExn (List (String × String)) :=
  match data.lookup "name" with
  | none => .ok es
  | some v =>
    match v with
    | .jstr str =>
      .ok (if (pyStrip str).length = 0 then es ++ [("name", "Name cannot be empty")] else es)
    | _ => .error .attributeError

/-- The price type check of `validate_plant_data` (app.py lines 47-48). -/
def priceCheck (data : JObject) (es : List (String × String)) : List (String × String) :=
  match data.lookup "price" with
  | none => es
  | some v => if isNumeric v then es else es ++ [("price", "Price must be a number")]

/-- `validate_plant_data(data, partial)` (app.py lines 34-50): required
fields when not partial, then the name and price checks, returning the
accumulated error dict or `None`; the name check may raise. -/
def validate_plant_data (data : JObject) (part : Bool) :
    Except PyExn (Option (List (String × String))) :=
  match nameCheck data (if part then [] else requiredErrors data) with
  | .error e => .error e
  | .ok errors1 =>
    .ok (if priceCheck data errors1 = [] then none else some (priceCheck data errors1))

/-- Modelled from the spec: the `Plant` model of `models.py`, which is not
under src/.  Per the spec's data model it has the columns `id`, `name`,
`image`, `price`, `is_in_stock`.  Columns hold whatever value was stored
(partial update writes unvalidated values), so each column is a `JValue`. -/
structure Plant where
  id : JValue
  name : JValue
  image : JValue
  price : JValue
  is_in_stock : JValue
deriving DecidableEq, Repr

/-- The column attribute names of `Plant`.  Modelled from the spec: the
data-model attribute list of `models.py`, which is not under src/. -/
def attrNames : List String := ["id", "name", "image", "price", "is_in_stock"]

/-- `hasattr(plant, attr)` (app.py line 146), restricted to the model's
column attributes; non-column keys are ignored by every claim considered
here. -/
def plantHasattr (k : String) : Bool := attrNames.contains k

/-- `setattr(plant, attr, value)` (app.py line 147) on a column attribute:
overwrite that column. -/
def pySetattr (p : Plant) (k : String) (v : JValue) : Plant :=
  if k = "id" then { p with id := v }
  else if k = "name" then { p with name := v }
  else if k = "image" then { p with image := v }
  else if k = "price" then { p with price := v }
  else if k = "is_in_stock" then { p with is_in_stock := v }
  else p

/-- `getattr(plant, attr)` for a column attribute (used to state frame
properties of the patch loop). -/
def plantGetattr (p : Plant) (k : String) : JValue :=
  if k = "id" then p.id
  else if k = "name" then p.name
  else if k = "image" then p.image
  else if k = "price" then p.price
  else if k = "is_in_stock" then p.is_in_stock
  else .jnull

/-- One iteration of the patch loop (app.py lines 145-147):
`if hasattr(plant, attr): setattr(plant, attr, data[attr])`. -/
def patchStep (q : Plant) (kv : String × JValue) : Plant :=
  if plantHasattr kv.1 then pySetattr q kv.1 kv.2 else q

/-- The whole patch loop `for attr in data: ...` (app.py lines 145-147),
iterating the body's keys in insertion order. -/
def applyPatch (p : Plant) (data : JObject) : Plant :=
  data.foldl patchStep p

/-- The persistent store backing the service: the committed `Plant` rows in
their natural return order, the next store-generated id (modelled from the
spec: "assigned by the store on creation"), whether the `plants` table
exists yet (app.py line 100), and the store-defined default for
`is_in_stock` (modelled from the spec: "defaults to a store-defined
default when not supplied"; `models.py` is not under src/). -/
structure Store where
  plants : List Plant
  nextId : Nat
  tableExists : Bool
  stockDefault : JValue
deriving DecidableEq, Repr

/-- The JSON response bodies the handlers build: the empty `''` body of
204, `{'error': msg}`, `{'errors': {field: msg}}`, a serialized plant
(`plant.to_dict()`), the list envelope `{'success', 'data', 'count'}`
(app.py lines 56-60) and the create envelope `{'success', 'data'}`
(app.py lines 81-84). -/
inductive Body where
  | empty : Body
  | errObj : String → Body
  | errsObj : List (String × String) → Body
  | plantObj : Plant → Body
  | listObj : Bool → List Plant → Int → Body
  | createdObj : Bool → Plant → Body
deriving DecidableEq, Repr

/-- An HTTP response: status code and JSON body. -/
structure HResp where
  status : Nat
  body : Body
deriving DecidableEq, Repr

/-- The id value of a routed `<int:id>` parameter as stored in the id
column. -/
def pid (i : Nat) : JValue := .jint i

/-- `Plant.query.filter_by(id=id).first()`: the first stored row whose id
column equals the requested id. -/
def lookupPlant (s : Store) (i : Nat) : Option Plant :=
  s.plants.find? (fun p => p.id == pid i)

/-- `Plants.get` (app.py lines 53-60): 200 with every stored plant and a
count equal to the returned sequence's length. -/
def plants_get (s : Store) : HResp :=
  ⟨200, .listObj true s.plants (s.plants.length : Int)⟩

/-- `Plants.post` (app.py lines 62-89): reject an absent or empty body
(400), run the validator with `partial=False` (an uncaught validator
exception reaches the generic 500 handler of app.py lines 30-32), reject
validation errors (400), otherwise persist a new plant built from the
body's `name`, `image`, `price` only, with a store-generated id and the
store default for `is_in_stock`, and answer 201. -/
def plants_post (s : Store) (body : Option JObject) : HResp × Store :=
  match body with
  | none => (⟨400, .errObj "No data provided"⟩, s)
  | some data =>
    if data = [] then (⟨400, .errObj "No data provided"⟩, s)
    else
      match validate_plant_data data false with
      | .error _ => (⟨500, .errObj "Internal server error"⟩, s)
      | .ok (some errs) => (⟨400, .errsObj errs⟩, s)
      | .ok none =>
        match data.lookup "name", data.lookup "image", data.lookup "price" with
        | some nv, some iv, some pv =>
          let newPlant : Plant := ⟨.jint (s.nextId : Int), nv, iv, pv, s.stockDefault⟩
          (⟨201, .createdObj true newPlant⟩,
           { s with plants := s.plants ++ [newPlant], nextId := s.nextId + 1 })
        | _, _, _ => (⟨500, .errObj "Internal server error"⟩, s)

/-- The seed record inserted by the lazy bootstrap (app.py lines 103-111). -/
def testPlant : Plant :=
  ⟨.jint 1, .jstr "Test Plant", .jstr "test.jpg", .jfloat ⟨999, 100⟩, .jbool true⟩

/-- The lazy schema bootstrap of `PlantByID.get` (app.py lines 98-111):
if the `plants` table does not exist yet, create it and commit the seed
record.  The next store-generated id after inserting id 1 is at least 2. -/
def bootstrap (s : Store) : Store :=
  if s.tableExists then s
  else { s with tableExists := true, plants := s.plants ++ [testPlant],
                nextId := max s.nextId 2 }

/-- `PlantByID.get` (app.py lines 94-127): bootstrap if needed, then 404
with `Plant with id <id> not found` when the id is absent, else 200 with
the serialized plant. -/
def plantById_get (s : Store) (i : Nat) : HResp × Store :=
  let s1 := bootstrap s
  match lookupPlant s1 i with
  | none => (⟨404, .errObj ("Plant with id " ++ toString i ++ " not found")⟩, s1)
  | some p => (⟨200, .plantObj p⟩, s1)

/-- Commit of the patched row: the first row whose id column matches the
routed id (the row the ORM loaded) is replaced by its mutated version. -/
def replaceFirst (l : List Plant) (i : Nat) (q : Plant) : List Plant :=
  match l with
  | [] => []
  | p :: rest => if p.id == pid i then q :: rest else p :: replaceFirst rest i q

/-- `PlantByID.patch` (app.py lines 129-156): 404 when the id is absent,
400 on an absent or empty body, otherwise run the unvalidated patch loop
over the body and answer 200 with the updated plant. -/
def plantById_patch (s : Store) (i : Nat) (body : Option JObject) : HResp × Store :=
  match lookupPlant s i with
  | none => (⟨404, .errObj "Plant not found"⟩, s)
  | some p =>
    match body with
    | none => (⟨400, .errObj "No data provided"⟩, s)
    | some data =>
      if data = [] then (⟨400, .errObj "No data provided"⟩, s)
      else
        let p2 := applyPatch p data
        (⟨200, .plantObj p2⟩, { s with plants := replaceFirst s.plants i p2 })

/-- Commit of `db.session.delete(plant)`: remove the first row whose id
column matches the routed id (the row the ORM loaded). -/
def removeFirst (l : List Plant) (i : Nat) : List Plant :=
  match l with
  | [] => []
  | p :: rest => if p.id == pid i then rest else p :: removeFirst rest i

/-- `PlantByID.delete` (app.py lines 158-174): 404 when the id is absent,
otherwise remove the row and answer 204 with an empty body. -/
def plantById_delete (s : Store) (i : Nat) : HResp × Store :=
  match lookupPlant s i with
  | none => (⟨404, .errObj "Plant not found"⟩, s)
  | some _ => (⟨204, .empty⟩, { s with plants := removeFirst s.plants i })

/-- A freshly migrated, empty store (table created, no rows). -/
def emptyStore : Store := ⟨[], 1, true, .jbool false⟩

/-- A create or delete request, for reasoning about operation sequences. -/
inductive Op where
  | create : Option JObject → Op
  | del : Nat → Op
deriving Repr

/-- The store after one operation. -/
def applyOp (s : Store) : Op → Store
  | .create b => (plants_post s b).2
  | .del i => (plantById_delete s i).2

/-- Whether one operation succeeded (201 for create, 204 for delete). -/
def opSucc (s : Store) : Op → Bool
  | .create b => (plants_post s b).1.status == 201
  | .del i => (plantById_delete s i).1.status == 204

/-- The store after a sequence of operations. -/
def runOps (s : Store) : List Op → Store
  | [] => s
  | op :: rest => runOps (applyOp s op) rest

/-- The number of successful creates along a run. -/
def succCreates (s : Store) : List Op → Nat
  | [] => 0
  | op :: rest =>
    (match op with
     | .create _ => if opSucc s op then 1 else 0
     | .del _ => 0) + succCreates (applyOp s op) rest

/-- The number of successful deletes along a run. -/
def succDeletes (s : Store) : List Op → Nat
  | [] => 0
  | op :: rest =>
    (match op with
     | .create _ => 0
     | .del _ => if opSucc s op then 1 else 0) + succDeletes (applyOp s op) rest

/-- The row-id predicate used by `filter_by(id=id)`. -/
def idPred (i : Nat) : Plant → Bool := fun r => r.id == pid i

/-- A stored example row used to instantiate the general theorems. -/
def fernPlant : Plant :=
  ⟨.jint 1, .jstr "Fern", .jstr "fern.jpg", .jint 5, .jbool true⟩

/-- A migrated store holding exactly the example row. -/
def oneStore : Store := ⟨[fernPlant], 2, true, .jbool false⟩

/-! ### Validator lemmas -/

/-- The required-field loop, written as the three checks side by side. -/
theorem requiredErrors_eq (data : JObject) :
    requiredErrors data =
      (if (data.lookup "name").isNone then [("name", "This field is required")] else []) ++
      ((if (data.lookup "image").isNone then [("image", "This field is required")] else []) ++
       (if (data.lookup "price").isNone then [("price", "This field is required")] else [])) := by
  unfold requiredErrors
  dsimp only [List.foldl]
  split <;> split <;> split <;> simp

/-- A missing required field contributes its error to the loop's output. -/
theorem mem_requiredErrors_of_none {data : JObject} {f : String}
    (hf : f = "name" ∨ f = "image" ∨ f = "price") (h : data.lookup f = none) :
    (f, "This field is required") ∈ requiredErrors data := by
  rw [requiredErrors_eq]
  rcases hf with rfl | rfl | rfl <;> simp [h]

/-- When every required field is present the loop reports nothing. -/
theorem requiredErrors_eq_nil {data : JObject}
    (h1 : (data.lookup "name").isSome) (h2 : (data.lookup "image").isSome)
    (h3 : (data.lookup "price").isSome) :
    requiredErrors data = [] := by
  rw [requiredErrors_eq]
  rw [Option.isSome_iff_exists] at h1 h2 h3
  obtain ⟨_, e1⟩ := h1
  obtain ⟨_, e2⟩ := h2
  obtain ⟨_, e3⟩ := h3
  simp [e1, e2, e3]

/-- The name check passes the accumulator through when `name` is absent. -/
theorem nameCheck_none {data : JObject} (es : List (String × String))
    (h : data.lookup "name" = none) : nameCheck data es = .ok es := by
  unfold nameCheck
  rw [h]

/-- The name check on a string value: append the emptiness error exactly
when the stripped value is empty. -/
theorem nameCheck_str {data : JObject} {str : String} (es : List (String × String))
    (h : data.lookup "name" = some (.jstr str)) :
    nameCheck data es =
      .ok (if (pyStrip str).length = 0 then es ++ [("name", "Name cannot be empty")] else es) := by
  unfold nameCheck
  rw [h]

/-- The name check raises on a non-string value. -/
theorem nameCheck_nonstr {data : JObject} {v : JValue} (es : List (String × String))
    (h : data.lookup "name" = some v) (hv : v.isStr = false) :
    nameCheck data es = .error .attributeError := by
  unfold nameCheck
  rw [h]
  cases v <;> simp_all [JValue.isStr]

/-- The price check only ever appends to its accumulator. -/
theorem priceCheck_sub {data : JObject} {es : List (String × String)} {x}
    (hx : x ∈ es) : x ∈ priceCheck data es := by
  unfold priceCheck
  rcases data.lookup "price" with _ | v
  · exact hx
  · dsimp only
    split
    · exact hx
    · exact List.mem_append_left _ hx

/-- A present non-numeric price contributes its error to the check's
output. -/
theorem priceCheck_mem {data : JObject} {v : JValue} (es : List (String × String))
    (hv : data.lookup "price" = some v) (hnum : isNumeric v = false) :
    ("price", "Price must be a number") ∈ priceCheck data es := by
  unfold priceCheck
  rw [hv]
  simp [hnum]

/-- The price check passes the accumulator through on a numeric price. -/
theorem priceCheck_eq_of_num {data : JObject} {v : JValue} (es : List (String × String))
    (hv : data.lookup "price" = some v) (hnum : isNumeric v = true) :
    priceCheck data es = es := by
  unfold priceCheck
  rw [hv]
  simp [hnum]

/-- Create-path validation, described: when the `name` value (if any) is a
string, validation returns the accumulated error list, which contains an
entry for every missing required field, for a non-numeric present price,
and for a present name that strips to empty. -/
theorem validate_false_spec (data : JObject)
    (hstr : ∀ v, data.lookup "name" = some v → v.isStr = true) :
    ∃ errs, validate_plant_data data false = .ok (if errs = [] then none else some errs) ∧
      (∀ x ∈ requiredErrors data, x ∈ errs) ∧
      (∀ v, data.lookup "price" = some v → isNumeric v = false →
        ("price", "Price must be a number") ∈ errs) ∧
      (∀ str, data.lookup "name" = some (.jstr str) → (pyStrip str).length = 0 →
        ("name", "Name cannot be empty") ∈ errs) := by
  rcases hl : data.lookup "name" with _ | v
  · refine ⟨priceCheck data (requiredErrors data), ?_, ?_, ?_, ?_⟩
    · unfold validate_plant_data
      rw [show (if (false : Bool) then ([] : List (String × String)) else requiredErrors data) =
            requiredErrors data from rfl,
          nameCheck_none _ hl]
    · intro x hx
      exact priceCheck_sub hx
    · intro v hv hnum
      exact priceCheck_mem _ hv hnum
    · intro str h1 _
      simp at h1
  · have hvs := hstr v hl
    rcases v with _ | b | n | q | str <;> simp [JValue.isStr] at hvs
    by_cases hlen : (pyStrip str).length = 0
    · refine ⟨priceCheck data (requiredErrors data ++ [("name", "Name cannot be empty")]),
        ?_, ?_, ?_, ?_⟩
      · unfold validate_plant_data
        rw [show (if (false : Bool) then ([] : List (String × String)) else requiredErrors data) =
              requiredErrors data from rfl,
            nameCheck_str _ hl, if_pos hlen]
      · intro x hx
        exact priceCheck_sub (List.mem_append_left _ hx)
      · intro v hv hnum
        exact priceCheck_mem _ hv hnum
      · intro str' h1 _
        exact priceCheck_sub (List.mem_append_right _ (by simp))
    · refine ⟨priceCheck data (requiredErrors data), ?_, ?_, ?_, ?_⟩
      · unfold validate_plant_data
        rw [show (if (false : Bool) then ([] : List (String × String)) else requiredErrors data) =
              requiredErrors data from rfl,
            nameCheck_str _ hl, if_neg hlen]
      · intro x hx
        exact priceCheck_sub hx
      · intro v hv hnum
        exact priceCheck_mem _ hv hnum
      · intro str' h1 h2
        cases h1
        exact absurd h2 hlen

/-- Create-path validation succeeds with no errors on a well-formed body:
all required fields present, name a non-empty string, price numeric. -/
theorem validate_false_ok_none {data : JObject} {n : String} {pv : JValue}
    (hn : data.lookup "name" = some (.jstr n)) (hlen : (pyStrip n).length ≠ 0)
    (hi : (data.lookup "image").isSome)
    (hp : data.lookup "price" = some pv) (hnum : isNumeric pv = true) :
    validate_plant_data data false = .ok none := by
  have hreq : requiredErrors data = [] :=
    requiredErrors_eq_nil (by rw [hn]; rfl) hi (by rw [hp]; rfl)
  unfold validate_plant_data
  rw [show (if (false : Bool) then ([] : List (String × String)) else requiredErrors data) =
        requiredErrors data from rfl,
      nameCheck_str _ hn, if_neg hlen, hreq]
  dsimp only
  rw [priceCheck_eq_of_num _ hp hnum]
  simp

/-! ### Patch-loop lemmas -/

/-- Column membership makes `hasattr` true. -/
theorem plantHasattr_of_mem {k : String} (hk : k ∈ attrNames) : plantHasattr k = true := by
  fin_cases hk <;> rfl

/-- `setattr` on one column leaves every other column unchanged. -/
theorem plantGetattr_pySetattr_ne {k k' : String} (h : k' ≠ k) (p : Plant) (v : JValue) :
    plantGetattr (pySetattr p k' v) k = plantGetattr p k := by
  unfold pySetattr
  split_ifs with h1 h2 h3 h4 h5 <;>
    (unfold plantGetattr; split_ifs <;> simp_all)

/-- `setattr` on a column stores exactly the given value. -/
theorem plantGetattr_pySetattr_self {k : String} (hk : k ∈ attrNames) (p : Plant) (v : JValue) :
    plantGetattr (pySetattr p k v) k = v := by
  fin_cases hk <;> rfl

/-- A column whose key is absent from the body is unchanged by the patch
loop. -/
theorem plantGetattr_applyPatch_absent {data : JObject} {k : String} (p : Plant)
    (h : data.lookup k = none) :
    plantGetattr (applyPatch p data) k = plantGetattr p k := by
  induction data generalizing p with
  | nil => rfl
  | cons kv rest ih =>
    obtain ⟨k', v⟩ := kv
    rw [List.lookup_cons] at h
    cases hkk : (k == k') with
    | false =>
      rw [hkk] at h
      have hne : k' ≠ k := by
        intro he
        rw [he] at hkk
        simp at hkk
      show plantGetattr (applyPatch (patchStep p (k', v)) rest) k = plantGetattr p k
      rw [ih _ h]
      unfold patchStep
      dsimp only
      split
      · exact plantGetattr_pySetattr_ne hne p v
      · rfl
    | true =>
      rw [hkk] at h
      cases h

/-- A column whose key appears in a duplicate-free body is overwritten with
the body's value by the patch loop. -/
theorem plantGetattr_applyPatch_present {data : JObject} {k : String} {v : JValue} (p : Plant)
    (hnd : (data.map Prod.fst).Nodup) (h : data.lookup k = some v) (hk : k ∈ attrNames) :
    plantGetattr (applyPatch p data) k = v := by
  induction data generalizing p with
  | nil => simp at h
  | cons kv rest ih =>
    obtain ⟨k', v'⟩ := kv
    rw [List.lookup_cons] at h
    cases hkk : (k == k') with
    | false =>
      rw [hkk] at h
      rw [List.map_cons, List.nodup_cons] at hnd
      show plantGetattr (applyPatch (patchStep p (k', v')) rest) k = v
      exact ih (patchStep p (k', v')) hnd.2 h
    | true =>
      rw [hkk] at h
      have hk' : k = k' := eq_of_beq hkk
      cases h
      subst hk'
      rw [List.map_cons, List.nodup_cons] at hnd
      have hrest : rest.lookup k = none := by
        rw [List.lookup_eq_none_iff]
        intro q hq
        have hq1 : q.1 ∈ rest.map Prod.fst := List.mem_map_of_mem _ hq
        simp only [bne_iff_ne, ne_eq]
        intro heq
        rw [← heq] at hq1
        exact hnd.1 hq1
      show plantGetattr (applyPatch (patchStep p (k, v)) rest) k = v
      rw [plantGetattr_applyPatch_absent _ hrest]
      unfold patchStep
      dsimp only
      rw [if_pos (plantHasattr_of_mem hk)]
      exact plantGetattr_pySetattr_self hk p v

/-! ### Store lemmas -/

/-- Replacing the found row with a row of the same id makes it the row the
next lookup returns. -/
theorem replaceFirst_find? {l : List Plant} {i : Nat} {p q : Plant}
    (h : l.find? (idPred i) = some p) (hid : q.id = p.id) :
    (replaceFirst l i q).find? (idPred i) = some q := by
  induction l with
  | nil => cases h
  | cons a l ih =>
    unfold replaceFirst
    by_cases ha : (a.id == pid i) = true
    · rw [if_pos ha]
      rw [List.find?_cons_of_pos l ha] at h
      injection h with h3
      have hq : idPred i q = true := by
        show (q.id == pid i) = true
        rw [hid, ← h3]
        exact ha
      exact List.find?_cons_of_pos l hq
    · rw [if_neg ha]
      rw [List.find?_cons_of_neg l ha] at h
      rw [List.find?_cons_of_neg (replaceFirst l i q) ha]
      exact ih h

/-- Replacing the found row with a row of the same id leaves the stored id
sequence unchanged. -/
theorem replaceFirst_map_id {l : List Plant} {i : Nat} {p q : Plant}
    (h : l.find? (idPred i) = some p) (hid : q.id = p.id) :
    (replaceFirst l i q).map Plant.id = l.map Plant.id := by
  induction l with
  | nil => cases h
  | cons a l ih =>
    unfold replaceFirst
    by_cases ha : (a.id == pid i) = true
    · rw [if_pos ha]
      rw [List.find?_cons_of_pos l ha] at h
      injection h with h3
      simp only [List.map_cons]
      rw [hid, ← h3]
    · rw [if_neg ha]
      rw [List.find?_cons_of_neg l ha] at h
      simp only [List.map_cons]
      rw [ih h]

/-- Removing a row that is not there changes nothing. -/
theorem removeFirst_of_none {l : List Plant} {i : Nat}
    (h : l.find? (idPred i) = none) : removeFirst l i = l := by
  induction l with
  | nil => rfl
  | cons a l ih =>
    rw [List.find?_eq_none] at h
    unfold removeFirst
    rw [if_neg (show ¬((a.id == pid i) = true) from h a (List.mem_cons_self a l))]
    rw [ih (List.find?_eq_none.mpr fun x hx => h x (List.mem_cons_of_mem a hx))]

/-- Removing a found row shortens the store by exactly one row. -/
theorem removeFirst_length {l : List Plant} {i : Nat} {p : Plant}
    (h : l.find? (idPred i) = some p) :
    (removeFirst l i).length + 1 = l.length := by
  induction l with
  | nil => cases h
  | cons a l ih =>
    unfold removeFirst
    by_cases ha : (a.id == pid i) = true
    · rw [if_pos ha]
      rfl
    · rw [if_neg ha]
      rw [List.find?_cons_of_neg l ha] at h
      have hl := ih h
      simp only [List.length_cons]
      omega

/-- When a store holds at most one row with the requested id, removing it
leaves no row with that id. -/
theorem removeFirst_find?_none {l : List Plant} {i : Nat}
    (hc : l.countP (idPred i) ≤ 1) :
    (removeFirst l i).find? (idPred i) = none := by
  induction l with
  | nil => rfl
  | cons a l ih =>
    unfold removeFirst
    by_cases ha : (a.id == pid i) = true
    · rw [if_pos ha]
      rw [List.countP_cons_of_pos (idPred i) l ha] at hc
      have h0 : l.countP (idPred i) = 0 := by omega
      rw [List.find?_eq_none]
      intro x hx
      exact List.countP_eq_zero.mp h0 x hx
    · rw [if_neg ha]
      rw [List.find?_cons_of_neg (removeFirst l i) ha]
      apply ih
      rw [List.countP_cons_of_neg (idPred i) l ha] at hc
      exact hc

/-- Removing a row keeps the remaining rows, in order. -/
theorem removeFirst_sublist (l : List Plant) (i : Nat) :
    (removeFirst l i).Sublist l := by
  induction l with
  | nil => exact List.Sublist.refl []
  | cons a l ih =>
    unfold removeFirst
    by_cases ha : (a.id == pid i) = true
    · rw [if_pos ha]
      exact List.sublist_cons_self a l
    · rw [if_neg ha]
      exact ih.cons₂ a

/-- The ORM lookup, phrased with `idPred`. -/
theorem lookupPlant_eq (s : Store) (i : Nat) :
    lookupPlant s i = s.plants.find? (idPred i) := rfl

/-- Create grows the store by one row exactly when it answers 201. -/
theorem plants_post_length (s : Store) (b : Option JObject) :
    ((plants_post s b).2).plants.length =
      s.plants.length + (if (plants_post s b).1.status = 201 then 1 else 0) := by
  unfold plants_post
  rcases b with _ | data
  · simp
  · dsimp only
    by_cases hd : data = []
    · rw [if_pos hd]
      simp
    · rw [if_neg hd]
      cases hv : validate_plant_data data false with
      | error e => simp
      | ok o =>
        cases o with
        | some errs => simp
        | none =>
          rcases hn : data.lookup "name" with _ | nv <;>
            rcases hi : data.lookup "image" with _ | iv <;>
              rcases hp : data.lookup "price" with _ | pv <;>
                simp

/-- Delete shrinks the store by one row exactly when it answers 204. -/
theorem plantById_delete_length (s : Store) (i : Nat) :
    ((plantById_delete s i).2).plants.length +
      (if (plantById_delete s i).1.status = 204 then 1 else 0) = s.plants.length := by
  unfold plantById_delete
  cases hl : lookupPlant s i with
  | none => simp
  | some p =>
    dsimp only
    rw [if_pos rfl]
    rw [lookupPlant_eq] at hl
    exact removeFirst_length hl

/-- Along any run of creates and deletes, the store's size plus the
successful deletes equals the starting size plus the successful creates. -/
theorem runOps_length (ops : List Op) : ∀ s : Store,
    (runOps s ops).plants.length + succDeletes s ops =
      s.plants.length + succCreates s ops := by
  induction ops with
  | nil => intro s; rfl
  | cons op rest ih =>
    intro s
    cases op with
    | create b =>
      simp only [runOps, succCreates, succDeletes, applyOp, opSucc, beq_iff_eq]
      have ih' := ih (plants_post s b).2
      have hlen := plants_post_length s b
      by_cases hc : (plants_post s b).1.status = 201
      · rw [if_pos hc] at hlen
        rw [if_pos hc]
        omega
      · rw [if_neg hc] at hlen
        rw [if_neg hc]
        omega
    | del i =>
      simp only [runOps, succCreates, succDeletes, applyOp, opSucc, beq_iff_eq]
      have ih' := ih (plantById_delete s i).2
      have hlen := plantById_delete_length s i
      by_cases hc : (plantById_delete s i).1.status = 204
      · rw [if_pos hc] at hlen
        rw [if_pos hc]
        omega
      · rw [if_neg hc] at hlen
        rw [if_neg hc]
        omega

/-! ### Claim theorems -/

/-- C10: for every create request whose body contains a `name` key whose
value is not a string, the validator raises (it calls `.strip()` without a
type check) instead of returning a field-error mapping, so the create
request is answered by the generic 500 handler rather than a 400
validation response, and nothing is persisted. -/
theorem c10_nonstring_name_500 (s : Store) (data : JObject) (v : JValue)
    (hne : data ≠ []) (hv : data.lookup "name" = some v) (hstr : v.isStr = false) :
    validate_plant_data data false = .error .attributeError ∧
    plants_post s (some data) = (⟨500, .errObj "Internal server error"⟩, s) := by
  have h1 : validate_plant_data data false = .error .attributeError := by
    unfold validate_plant_data
    rw [nameCheck_nonstr _ hv hstr]
  refine ⟨h1, ?_⟩
  unfold plants_post
  dsimp only
  rw [if_neg hne, h1]

/-- C10 witness: the body `{"name": 5}` is answered 500, not 400. -/
theorem c10_witness :
    ([("name", JValue.jint 5)] : JObject) ≠ [] ∧
    plants_post emptyStore (some [("name", JValue.jint 5)]) =
      (⟨500, .errObj "Internal server error"⟩, emptyStore) :=
  ⟨by decide,
   (c10_nonstring_name_500 emptyStore [("name", JValue.jint 5)] (JValue.jint 5)
      (by decide) rfl rfl).2⟩

/-- C2 (amended): for every create request whose non-empty body omits any
of `name`, `image`, `price` and whose `name` value, when present, is a
string, the response is 400 and the errors mapping contains one entry per
missing field with message "This field is required", all reported together
in one response.  (A present non-string `name` instead makes the validator
raise, yielding 500 — see the counterexample and C10.) -/
theorem c2_missing_fields_reported_together (s : Store) (data : JObject)
    (hne : data ≠ [])
    (hstr : ∀ v, data.lookup "name" = some v → v.isStr = true)
    (hmiss : data.lookup "name" = none ∨ data.lookup "image" = none ∨
      data.lookup "price" = none) :
    ∃ errs, plants_post s (some data) = (⟨400, .errsObj errs⟩, s) ∧
      (data.lookup "name" = none → ("name", "This field is required") ∈ errs) ∧
      (data.lookup "image" = none → ("image", "This field is required") ∈ errs) ∧
      (data.lookup "price" = none → ("price", "This field is required") ∈ errs) := by
  obtain ⟨errs, hval, hreq, -, -⟩ := validate_false_spec data hstr
  have hne2 : errs ≠ [] := by
    rcases hmiss with h | h | h
    · exact List.ne_nil_of_mem (hreq _ (mem_requiredErrors_of_none (Or.inl rfl) h))
    · exact List.ne_nil_of_mem (hreq _ (mem_requiredErrors_of_none (Or.inr (Or.inl rfl)) h))
    · exact List.ne_nil_of_mem (hreq _ (mem_requiredErrors_of_none (Or.inr (Or.inr rfl)) h))
  rw [if_neg hne2] at hval
  refine ⟨errs, ?_, ?_, ?_, ?_⟩
  · unfold plants_post
    dsimp only
    rw [if_neg hne, hval]
  · intro h
    exact hreq _ (mem_requiredErrors_of_none (Or.inl rfl) h)
  · intro h
    exact hreq _ (mem_requiredErrors_of_none (Or.inr (Or.inl rfl)) h)
  · intro h
    exact hreq _ (mem_requiredErrors_of_none (Or.inr (Or.inr rfl)) h)

/-- C2 counterexample: the non-empty body `{"name": 5}` omits `image` and
`price`, yet the response status is 500, not 400 with required-field
errors, because the validator raises on the non-string name. -/
theorem c2_counterexample :
    ([("name", JValue.jint 5)] : JObject) ≠ [] ∧
    ([("name", JValue.jint 5)] : JObject).lookup "image" = none ∧
    ([("name", JValue.jint 5)] : JObject).lookup "price" = none ∧
    (plants_post emptyStore (some [("name", JValue.jint 5)])).1.status = 500 := by
  decide

/-- C2 witness: a body holding only `image` is rejected 400 with required
errors for both `name` and `price`, reported together. -/
theorem c2_witness :
    ∃ errs, plants_post emptyStore (some [("image", JValue.jstr "i.jpg")]) =
      (⟨400, .errsObj errs⟩, emptyStore) ∧
      (([("image", JValue.jstr "i.jpg")] : JObject).lookup "name" = none →
        ("name", "This field is required") ∈ errs) ∧
      (([("image", JValue.jstr "i.jpg")] : JObject).lookup "image" = none →
        ("image", "This field is required") ∈ errs) ∧
      (([("image", JValue.jstr "i.jpg")] : JObject).lookup "price" = none →
        ("price", "This field is required") ∈ errs) :=
  c2_missing_fields_reported_together emptyStore [("image", JValue.jstr "i.jpg")]
    (by decide) (fun v hv => nomatch hv) (Or.inl rfl)

/-- C4 (amended): for every create request whose non-empty body contains a
price value that is neither numeric nor boolean (Python booleans pass the
`isinstance` int check) and whose `name` value, when present, is a string,
the response is 400 with an error keyed `price` and the store is
unchanged. -/
theorem c4_nonnumeric_price_rejected (s : Store) (data : JObject) (v : JValue)
    (hne : data ≠ [])
    (hstr : ∀ w, data.lookup "name" = some w → w.isStr = true)
    (hv : data.lookup "price" = some v) (hnum : isNumeric v = false) :
    ∃ errs, plants_post s (some data) = (⟨400, .errsObj errs⟩, s) ∧
      ("price", "Price must be a number") ∈ errs := by
  obtain ⟨errs, hval, -, hprice, -⟩ := validate_false_spec data hstr
  have hmem := hprice v hv hnum
  have hne2 : errs ≠ [] := List.ne_nil_of_mem hmem
  rw [if_neg hne2] at hval
  refine ⟨errs, ?_, hmem⟩
  unfold plants_post
  dsimp only
  rw [if_neg hne, hval]

/-- C4 counterexample: the boolean price `true` is neither an integer nor
a float, yet the create succeeds with 201 and persists a record, because
Python's `bool` passes the `isinstance(..., (int, float))` check. -/
theorem c4_counterexample :
    (plants_post emptyStore (some [("name", JValue.jstr "Rose"), ("image", JValue.jstr "r.jpg"),
      ("price", JValue.jbool true)])).1.status = 201 ∧
    (plants_post emptyStore (some [("name", JValue.jstr "Rose"), ("image", JValue.jstr "r.jpg"),
      ("price", JValue.jbool true)])).2.plants.length = 1 := by
  decide

/-- C4 witness: a string price is rejected 400 with a `price` error and no
record persisted. -/
theorem c4_witness :
    ∃ errs, plants_post emptyStore (some [("name", JValue.jstr "Rose"),
      ("image", JValue.jstr "r.jpg"), ("price", JValue.jstr "seven")]) =
      (⟨400, .errsObj errs⟩, emptyStore) ∧
      ("price", "Price must be a number") ∈ errs :=
  c4_nonnumeric_price_rejected emptyStore
    [("name", JValue.jstr "Rose"), ("image", JValue.jstr "r.jpg"), ("price", JValue.jstr "seven")]
    (JValue.jstr "seven") (by decide) (fun w hw => by cases hw; rfl) rfl rfl

/-- C3: a body whose name value strips to the empty string is rejected 400
with a `name` error on the create path, while the same name supplied on a
partial update of an existing record is accepted (200) and the empty name
is stored — the documented asymmetry. -/
theorem c3_empty_name_create_update_asymmetry (s : Store) (data : JObject) (n : String)
    (i : Nat) (p : Plant)
    (hn : data.lookup "name" = some (.jstr n)) (hlen : (pyStrip n).length = 0)
    (hne : data ≠ [])
    (hp : lookupPlant s i = some p) :
    (∃ errs, plants_post s (some data) = (⟨400, .errsObj errs⟩, s) ∧
      ("name", "Name cannot be empty") ∈ errs) ∧
    (plantById_patch s i (some [("name", .jstr n)])).1 =
      ⟨200, .plantObj { p with name := .jstr n }⟩ ∧
    lookupPlant (plantById_patch s i (some [("name", .jstr n)])).2 i =
      some { p with name := .jstr n } := by
  refine ⟨?_, ?_, ?_⟩
  · have hstr : ∀ v, data.lookup "name" = some v → v.isStr = true := by
      intro v hv
      rw [hn] at hv
      cases hv
      rfl
    obtain ⟨errs, hval, -, -, hname⟩ := validate_false_spec data hstr
    have hmem := hname n hn hlen
    have hne2 : errs ≠ [] := List.ne_nil_of_mem hmem
    rw [if_neg hne2] at hval
    refine ⟨errs, ?_, hmem⟩
    unfold plants_post
    dsimp only
    rw [if_neg hne, hval]
  · unfold plantById_patch
    rw [hp]
    dsimp only
    rw [if_neg (show ¬(([("name", JValue.jstr n)] : JObject) = []) by simp)]
    rfl
  · unfold plantById_patch
    rw [hp]
    dsimp only
    rw [if_neg (show ¬(([("name", JValue.jstr n)] : JObject) = []) by simp)]
    dsimp only
    rw [lookupPlant_eq]
    dsimp only
    have hfind : s.plants.find? (idPred i) = some p := by
      rw [← lookupPlant_eq]
      exact hp
    exact replaceFirst_find? hfind rfl

/-- C3 witness: name `"   "` strips to empty; create on the example store
is rejected with the `name` error while the patch stores the blank name. -/
theorem c3_witness :
    (∃ errs, plants_post oneStore
        (some [("name", JValue.jstr "   "), ("image", JValue.jstr "x"), ("price", JValue.jint 3)]) =
        (⟨400, .errsObj errs⟩, oneStore) ∧
      ("name", "Name cannot be empty") ∈ errs) ∧
    (plantById_patch oneStore 1 (some [("name", JValue.jstr "   ")])).1 =
      ⟨200, .plantObj { fernPlant with name := JValue.jstr "   " }⟩ ∧
    lookupPlant (plantById_patch oneStore 1 (some [("name", JValue.jstr "   ")])).2 1 =
      some { fernPlant with name := JValue.jstr "   " } :=
  c3_empty_name_create_update_asymmetry oneStore
    [("name", JValue.jstr "   "), ("image", JValue.jstr "x"), ("price", JValue.jint 3)]
    "   " 1 fernPlant rfl (by decide) (by decide) rfl

/-- C8: a successful partial update overwrites exactly the supplied
columns with the body's values, leaves every other column unchanged, and
commits the patched row in place of the old one. -/
theorem c8_patch_frame_and_update (s : Store) (i : Nat) (p : Plant) (data : JObject)
    (hp : lookupPlant s i = some p) (hne : data ≠ [])
    (hnd : (data.map Prod.fst).Nodup)
    (hsub : ∀ kv ∈ data, kv.1 ∈ attrNames) :
    (plantById_patch s i (some data)).1 = ⟨200, .plantObj (applyPatch p data)⟩ ∧
    (plantById_patch s i (some data)).2 =
      { s with plants := replaceFirst s.plants i (applyPatch p data) } ∧
    (∀ k, data.lookup k = none →
      plantGetattr (applyPatch p data) k = plantGetattr p k) ∧
    (∀ k v, data.lookup k = some v → plantGetattr (applyPatch p data) k = v) := by
  refine ⟨?_, ?_, ?_, ?_⟩
  · unfold plantById_patch
    rw [hp]
    dsimp only
    rw [if_neg hne]
  · unfold plantById_patch
    rw [hp]
    dsimp only
    rw [if_neg hne]
  · intro k hk
    exact plantGetattr_applyPatch_absent p hk
  · intro k v hkv
    have hkmem : k ∈ attrNames := by
      obtain ⟨l₁, l₂, heq, -⟩ := List.lookup_eq_some_iff.mp hkv
      exact hsub (k, v) (by rw [heq]; exact List.mem_append_right _ (List.mem_cons_self _ _))
    exact plantGetattr_applyPatch_present p hnd hkv hkmem

/-- C8 witness: patching only the price of the example row gives 200,
changes `price` to the supplied value and leaves `name`, `image` and
`is_in_stock` untouched. -/
theorem c8_witness :
    (plantById_patch oneStore 1 (some [("price", JValue.jint 7)])).1 =
      ⟨200, .plantObj (applyPatch fernPlant [("price", JValue.jint 7)])⟩ ∧
    (plantById_patch oneStore 1 (some [("price", JValue.jint 7)])).2 =
      { oneStore with
          plants := replaceFirst oneStore.plants 1 (applyPatch fernPlant [("price", JValue.jint 7)]) } ∧
    (∀ k, ([("price", JValue.jint 7)] : JObject).lookup k = none →
      plantGetattr (applyPatch fernPlant [("price", JValue.jint 7)]) k = plantGetattr fernPlant k) ∧
    (∀ k v, ([("price", JValue.jint 7)] : JObject).lookup k = some v →
      plantGetattr (applyPatch fernPlant [("price", JValue.jint 7)]) k = v) :=
  c8_patch_frame_and_update oneStore 1 fernPlant [("price", JValue.jint 7)]
    rfl (by decide) (by decide) (by decide)

/-- C1 (amended): the stored id sequence is untouched by a partial update
whose payload has no `id` key; create only appends the new store-assigned
id; delete only removes rows; get-by-id at most appends the bootstrap seed
id.  (A partial update whose payload does contain an `id` key overwrites
the stored id — see the counterexample.) -/
theorem c1_id_immutable_except_patch_with_id :
    (∀ (s : Store) (i : Nat) (data : JObject), data.lookup "id" = none →
      (plantById_patch s i (some data)).2.plants.map Plant.id = s.plants.map Plant.id) ∧
    (∀ (s : Store) (b : Option JObject),
      (plants_post s b).2.plants.map Plant.id = s.plants.map Plant.id ∨
      (plants_post s b).2.plants.map Plant.id =
        s.plants.map Plant.id ++ [JValue.jint (s.nextId : Int)]) ∧
    (∀ (s : Store) (i : Nat), ((plantById_delete s i).2.plants).Sublist s.plants) ∧
    (∀ (s : Store) (i : Nat),
      (plantById_get s i).2.plants.map Plant.id = s.plants.map Plant.id ∨
      (plantById_get s i).2.plants.map Plant.id = s.plants.map Plant.id ++ [JValue.jint 1]) := by
  refine ⟨?_, ?_, ?_, ?_⟩
  · intro s i data hid
    unfold plantById_patch
    cases hl : lookupPlant s i with
    | none => rfl
    | some p =>
      dsimp only
      by_cases hd : data = []
      · rw [if_pos hd]
      · rw [if_neg hd]
        dsimp only
        have hfind : s.plants.find? (idPred i) = some p := by
          rw [← lookupPlant_eq]
          exact hl
        have hidq : (applyPatch p data).id = p.id :=
          plantGetattr_applyPatch_absent p hid
        exact replaceFirst_map_id hfind hidq
  · intro s b
    unfold plants_post
    rcases b with _ | data
    · exact Or.inl rfl
    · dsimp only
      by_cases hd : data = []
      · rw [if_pos hd]
        exact Or.inl rfl
      · rw [if_neg hd]
        cases hv : validate_plant_data data false with
        | error e => exact Or.inl rfl
        | ok o =>
          cases o with
          | some errs => exact Or.inl rfl
          | none =>
            rcases hn : data.lookup "name" with _ | nv <;>
              rcases hi : data.lookup "image" with _ | iv <;>
                rcases hp : data.lookup "price" with _ | pv <;>
                  simp
  · intro s i
    unfold plantById_delete
    cases hl : lookupPlant s i with
    | none => exact List.Sublist.refl _
    | some p => exact removeFirst_sublist s.plants i
  · intro s i
    unfold plantById_get
    dsimp only
    cases hl : lookupPlant (bootstrap s) i <;>
      · dsimp only
        unfold bootstrap
        by_cases ht : s.tableExists = true
        · rw [if_pos ht]
          exact Or.inl rfl
        · rw [if_neg ht]
          exact Or.inr (by simp [testPlant])

/-- C1 counterexample: patching the example row with the payload
`{"id": 42}` changes its stored id from 1 to 42 — `hasattr` is true for
`id`, so the loop overwrites it. -/
theorem c1_counterexample :
    oneStore.plants.map Plant.id = [JValue.jint 1] ∧
    (plantById_patch oneStore 1 (some [("id", JValue.jint 42)])).2.plants.map Plant.id =
      [JValue.jint 42] := by
  decide

/-- C1 witness: an id-free patch payload leaves the stored id sequence
unchanged. -/
theorem c1_witness :
    (plantById_patch oneStore 1 (some [("price", JValue.jint 7)])).2.plants.map Plant.id =
      oneStore.plants.map Plant.id :=
  c1_id_immutable_except_patch_with_id.1 oneStore 1 [("price", JValue.jint 7)] rfl

/-- C5: a successful create followed by get-by-id with the returned id
yields a record whose `name`, `image`, `price` are the request's values
and whose `is_in_stock` is the store default, whatever `is_in_stock` (if
any) the create request supplied. -/
theorem c5_create_get_roundtrip (s : Store) (data : JObject) (n : String) (iv pv : JValue)
    (hn : data.lookup "name" = some (.jstr n)) (hlen : (pyStrip n).length ≠ 0)
    (hi : data.lookup "image" = some iv)
    (hp : data.lookup "price" = some pv) (hnum : isNumeric pv = true)
    (hne : data ≠ [])
    (htab : s.tableExists = true)
    (hfresh : JValue.jint (s.nextId : Int) ∉ s.plants.map Plant.id) :
    (plants_post s (some data)).1 =
      ⟨201, .createdObj true ⟨.jint (s.nextId : Int), .jstr n, iv, pv, s.stockDefault⟩⟩ ∧
    (plantById_get (plants_post s (some data)).2 s.nextId).1 =
      ⟨200, .plantObj ⟨.jint (s.nextId : Int), .jstr n, iv, pv, s.stockDefault⟩⟩ := by
  have hval := validate_false_ok_none hn hlen (by rw [hi]; rfl) hp hnum
  have hpost : plants_post s (some data) =
      (⟨201, .createdObj true ⟨.jint (s.nextId : Int), .jstr n, iv, pv, s.stockDefault⟩⟩,
       { s with
          plants := s.plants ++ [⟨.jint (s.nextId : Int), .jstr n, iv, pv, s.stockDefault⟩],
          nextId := s.nextId + 1 }) := by
    unfold plants_post
    dsimp only
    rw [if_neg hne, hval, hn, hi, hp]
  refine ⟨by rw [hpost], ?_⟩
  rw [hpost]
  unfold plantById_get
  have hboot : bootstrap
      { s with
          plants := s.plants ++ [⟨.jint (s.nextId : Int), .jstr n, iv, pv, s.stockDefault⟩],
          nextId := s.nextId + 1 } =
      { s with
          plants := s.plants ++ [⟨.jint (s.nextId : Int), .jstr n, iv, pv, s.stockDefault⟩],
          nextId := s.nextId + 1 } := by
    unfold bootstrap
    rw [if_pos]
    exact htab
  dsimp only
  rw [hboot]
  have h1 : s.plants.find? (idPred s.nextId) = none := by
    rw [List.find?_eq_none]
    intro x hx hbeq
    apply hfresh
    have hxid : x.id = pid s.nextId := eq_of_beq hbeq
    rw [show JValue.jint (s.nextId : Int) = pid s.nextId from rfl, ← hxid]
    exact List.mem_map_of_mem _ hx
  have h2 : lookupPlant
      { s with
          plants := s.plants ++ [⟨.jint (s.nextId : Int), .jstr n, iv, pv, s.stockDefault⟩],
          nextId := s.nextId + 1 } s.nextId =
      some ⟨.jint (s.nextId : Int), .jstr n, iv, pv, s.stockDefault⟩ := by
    rw [lookupPlant_eq]
    dsimp only
    rw [List.find?_append, h1]
    have hq : idPred s.nextId ⟨.jint (s.nextId : Int), .jstr n, iv, pv, s.stockDefault⟩ = true := by
      simp [idPred, pid]
    rw [List.find?_cons_of_pos [] hq]
    rfl
  rw [h2]

/-- C5 witness: creating Fern (price 12.5, with a supplied
`is_in_stock: true`) in the empty store and fetching id 1 returns the
created values with the default `is_in_stock: false`. -/
theorem c5_witness :
    (plants_post emptyStore (some [("name", JValue.jstr "Fern"), ("image", JValue.jstr "fern.jpg"),
      ("price", JValue.jfloat ⟨125, 10⟩), ("is_in_stock", JValue.jbool true)])).1 =
      ⟨201, .createdObj true ⟨JValue.jint 1, JValue.jstr "Fern", JValue.jstr "fern.jpg",
        JValue.jfloat ⟨125, 10⟩, JValue.jbool false⟩⟩ ∧
    (plantById_get (plants_post emptyStore (some [("name", JValue.jstr "Fern"),
      ("image", JValue.jstr "fern.jpg"), ("price", JValue.jfloat ⟨125, 10⟩),
      ("is_in_stock", JValue.jbool true)])).2 1).1 =
      ⟨200, .plantObj ⟨JValue.jint 1, JValue.jstr "Fern", JValue.jstr "fern.jpg",
        JValue.jfloat ⟨125, 10⟩, JValue.jbool false⟩⟩ :=
  c5_create_get_roundtrip emptyStore
    [("name", JValue.jstr "Fern"), ("image", JValue.jstr "fern.jpg"),
     ("price", JValue.jfloat ⟨125, 10⟩), ("is_in_stock", JValue.jbool true)]
    "Fern" (JValue.jstr "fern.jpg") (JValue.jfloat ⟨125, 10⟩)
    rfl (by decide) rfl rfl rfl (by decide) rfl (by decide)

/-- C6: a get-by-id whose id matches no record (after the lazy bootstrap)
answers 404 with exactly the body `error: Plant with id <id> not found`. -/
theorem c6_get_missing_id_404 (s : Store) (i : Nat)
    (h : lookupPlant (bootstrap s) i = none) :
    (plantById_get s i).1 =
      ⟨404, .errObj ("Plant with id " ++ toString i ++ " not found")⟩ := by
  unfold plantById_get
  dsimp only
  rw [h]

/-- C6 witness: GET of id 999 on the migrated empty store is the exact 404
body for id 999. -/
theorem c6_witness :
    lookupPlant (bootstrap emptyStore) 999 = none ∧
    (plantById_get emptyStore 999).1 = ⟨404, .errObj "Plant with id 999 not found"⟩ :=
  ⟨by decide, c6_get_missing_id_404 emptyStore 999 (by decide)⟩

/-- C7: deleting an absent id answers 404 and leaves the store unchanged;
when a store holds at most one row with an id, deleting that id twice
answers 404 the second time with no further effect. -/
theorem c7_delete_missing_id_404_idempotent :
    (∀ (s : Store) (i : Nat), lookupPlant s i = none →
      plantById_delete s i = (⟨404, .errObj "Plant not found"⟩, s)) ∧
    (∀ (s : Store) (i : Nat), s.plants.countP (idPred i) ≤ 1 →
      (plantById_delete (plantById_delete s i).2 i).1.status = 404 ∧
      (plantById_delete (plantById_delete s i).2 i).2 = (plantById_delete s i).2) := by
  have h404 : ∀ (s : Store) (i : Nat), lookupPlant s i = none →
      plantById_delete s i = (⟨404, .errObj "Plant not found"⟩, s) := by
    intro s i h
    unfold plantById_delete
    rw [h]
  refine ⟨h404, ?_⟩
  intro s i hc
  cases hl : lookupPlant s i with
  | none =>
    rw [h404 s i hl]
    dsimp only
    rw [h404 s i hl]
    exact ⟨rfl, rfl⟩
  | some p =>
    have hs2 : (plantById_delete s i).2 = { s with plants := removeFirst s.plants i } := by
      unfold plantById_delete
      rw [hl]
    have hnone : lookupPlant { s with plants := removeFirst s.plants i } i = none := by
      rw [lookupPlant_eq]
      dsimp only
      exact removeFirst_find?_none hc
    rw [hs2, h404 _ _ hnone]
    exact ⟨rfl, rfl⟩

/-- C7 witness: deleting id 1 from the one-row store and then deleting it
again gives 404 on the second delete and changes nothing further. -/
theorem c7_witness :
    oneStore.plants.countP (idPred 1) ≤ 1 ∧
    (plantById_delete (plantById_delete oneStore 1).2 1).1.status = 404 ∧
    (plantById_delete (plantById_delete oneStore 1).2 1).2 = (plantById_delete oneStore 1).2 :=
  ⟨by decide, c7_delete_missing_id_404_idempotent.2 oneStore 1 (by decide)⟩

/-- C9: after any sequence of creates and deletes on the empty store with
N successful creates and M successful deletes, listing answers 200 with
success true, exactly N − M records, and a count equal to the returned
sequence's length, which is N − M; moreover M ≤ N. -/
theorem c9_list_success_count (ops : List Op) :
    ∃ l : List Plant,
      plants_get (runOps emptyStore ops) = ⟨200, .listObj true l (l.length : Int)⟩ ∧
      l.length = succCreates emptyStore ops - succDeletes emptyStore ops ∧
      succDeletes emptyStore ops ≤ succCreates emptyStore ops := by
  have h := runOps_length ops emptyStore
  have h0 : emptyStore.plants.length = 0 := rfl
  refine ⟨(runOps emptyStore ops).plants, rfl, ?_, ?_⟩
  · omega
  · omega
